import Mathlib

/-!
Verification of the glTF-Transform core document model against its source.

The development shallowly embeds the `Container` facade (`packages/core/src/container.ts`)
and, where the deciding code is not part of the provided sources (Graph clone, Reader,
Writer, image utilities), models those components from the specification, as marked on
each definition.
-/

/-- Element type tags for the glTF resource graph
(Scene, Node, Mesh, Primitive, Material, Texture, Accessor, Buffer). -/
inductive ElemType where
  | scene
  | node
  | mesh
  | primitive
  | material
  | texture
  | accessor
  | buffer
deriving DecidableEq, Repr

/-- An in-memory Element as seen through the Container factory methods: a fresh
numeric identity, a type tag, a name, and the identities of Elements it links to. -/
structure Element where
  id : Nat
  etype : ElemType
  name : String
  links : List Nat
deriving DecidableEq, Repr

/-- Modelled from the spec: the Graph "tracks every Element instance"; Element
constructors register the new element in the Graph (`new Scene(this.graph, name)`
passes the graph to the constructor). We track registered identities. -/
structure ElementGraph where
  elements : List Nat
deriving DecidableEq, Repr

/-- Modelled from the spec: the Root element's ordered top-level collections, by
Element identity — Root "owns ordered, deduplicated lists of every top-level
Element type"; the missing `root.addScene(scene)` etc. append to them. -/
structure Root where
  scenes : List Nat
  nodes : List Nat
  meshes : List Nat
  materials : List Nat
  textures : List Nat
  accessors : List Nat
  buffers : List Nat
deriving DecidableEq, Repr

/-- The `Container` class from `packages/core/src/container.ts`: owns one graph and one root. -/
structure Container where
  graph : ElementGraph
  root : Root
deriving DecidableEq, Repr

/-- A freshly constructed container: empty graph, empty root collections. -/
def Container.new : Container :=
  { graph := { elements := [] },
    root := { scenes := [], nodes := [], meshes := [], materials := [],
              textures := [], accessors := [], buffers := [] } }

/-- Modelled from the spec: an Element constructor allocates a fresh identity and
registers it in the graph. Returns the updated graph and the new element. -/
def ElementGraph.newElement (g : ElementGraph) (t : ElemType) (name : String) :
    ElementGraph × Element :=
  let e : Element := { id := g.elements.length, etype := t, name := name, links := [] }
  ({ elements := g.elements ++ [e.id] }, e)

/-- Modelled from the spec: the missing `Accessor.prototype.setBuffer` links the
accessor to the given buffer (the accessor holds a single buffer link). -/
def Element.setBuffer (e : Element) (b : Nat) : Element :=
  { e with links := [b] }

/-- Method `Container.prototype.clone` (container.ts line 27): the body is
`throw new Error('Not implemented.');`, embedded as an `Except` failure. -/
def Container.clone (_c : Container) : Except String Container :=
  Except.error "Not implemented."

/-- Method `Container.prototype.createScene`. -/
def Container.createScene (c : Container) (name : String) : Container × Element :=
  let (g, scene) := c.graph.newElement .scene name
  ({ graph := g, root := { c.root with scenes := c.root.scenes ++ [scene.id] } }, scene)

/-- Method `Container.prototype.createNode`. -/
def Container.createNode (c : Container) (name : String) : Container × Element :=
  let (g, node) := c.graph.newElement .node name
  ({ graph := g, root := { c.root with nodes := c.root.nodes ++ [node.id] } }, node)

/-- Method `Container.prototype.createMesh`. -/
def Container.createMesh (c : Container) (name : String) : Container × Element :=
  let (g, mesh) := c.graph.newElement .mesh name
  ({ graph := g, root := { c.root with meshes := c.root.meshes ++ [mesh.id] } }, mesh)

/-- Method `Container.prototype.createPrimitive`: registered in the graph, not attached to Root. -/
def Container.createPrimitive (c : Container) : Container × Element :=
  let (g, prim) := c.graph.newElement .primitive ""
  ({ graph := g, root := c.root }, prim)

/-- Method `Container.prototype.createMaterial`. -/
def Container.createMaterial (c : Container) (name : String) : Container × Element :=
  let (g, material) := c.graph.newElement .material name
  ({ graph := g, root := { c.root with materials := c.root.materials ++ [material.id] } },
   material)

/-- Method `Container.prototype.createTexture`. -/
def Container.createTexture (c : Container) (name : String) : Container × Element :=
  let (g, texture) := c.graph.newElement .texture name
  ({ graph := g, root := { c.root with textures := c.root.textures ++ [texture.id] } },
   texture)

/-- Method `Container.prototype.createAccessor`: takes a buffer and links the new
accessor to it (`new Accessor(this.graph, name).setBuffer(buffer)`) before
attaching it to Root. -/
def Container.createAccessor (c : Container) (name : String) (buffer : Nat) :
    Container × Element :=
  let (g, a) := c.graph.newElement .accessor name
  let accessor := a.setBuffer buffer
  ({ graph := g, root := { c.root with accessors := c.root.accessors ++ [accessor.id] } },
   accessor)

/-- Method `Container.prototype.createBuffer`. -/
def Container.createBuffer (c : Container) (name : String) : Container × Element :=
  let (g, buffer) := c.graph.newElement .buffer name
  ({ graph := g, root := { c.root with buffers := c.root.buffers ++ [buffer.id] } },
   buffer)

/-! ### Writer: binary packing (modelled from the spec, §4.3 step 4) -/

/-- Round `n` up to the nearest multiple of 8 (byte alignment of the wire format). -/
def alignTo8 (n : Nat) : Nat := ((n + 7) / 8) * 8

/-- A wire-format buffer view `{buffer, byteOffset, byteLength}`. -/
structure BufferViewDef where
  buffer : Nat
  byteOffset : Nat
  byteLength : Nat
deriving DecidableEq, Repr

/-- Modelled from the spec: pack payload segments of the given byte lengths into
buffer 0 starting at `cursor`; each segment's start offset is rounded up to the
nearest multiple of 8 bytes. -/
def packSegments (cursor : Nat) : List Nat → List BufferViewDef
  | [] => []
  | len :: rest =>
    let offset := alignTo8 cursor
    { buffer := 0, byteOffset := offset, byteLength := len } :: packSegments (offset + len) rest

/-- Buffer views produced for payload segments of the given lengths. -/
def packBufferViews (lengths : List Nat) : List BufferViewDef := packSegments 0 lengths

/-- End cursor after packing all segments starting at `cursor`. -/
def packEnd (cursor : Nat) : List Nat → Nat
  | [] => cursor
  | len :: rest => packEnd (alignTo8 cursor + len) rest

/-- Modelled from the spec: the packed buffer's total byteLength is the final
cursor padded up to 8-byte alignment. -/
def packedBufferLength (lengths : List Nat) : Nat := alignTo8 (packEnd 0 lengths)

/-! ### Image MIME types (C7) -/

/-- Modelled from the spec: byte-signature table for PNG, JPEG and WebP. -/
def sniffMimeType (bytes : List Nat) : Option String :=
  if bytes.take 8 = [137, 80, 78, 71, 13, 10, 26, 10] then some "image/png"
  else if bytes.take 3 = [255, 216, 255] then some "image/jpeg"
  else if bytes.take 4 = [82, 73, 70, 70] ∧ ((bytes.drop 8).take 4 = [87, 69, 66, 80]) then
    some "image/webp"
  else none

/-- Modelled from the spec: the missing `FileUtils.extension` — the substring
after the last dot (`uri.split('.').pop()`; a URI without dots yields itself). -/
def uriExtension (uri : String) : String :=
  String.mk (uri.data.foldl (fun acc c => if c = '.' then [] else acc ++ [c]) [])

/-- Modelled from the spec: the missing `ImageUtils.extensionToMimeType`. -/
def extensionToMimeType (e : String) : Option String :=
  if e = "png" then some "image/png"
  else if e = "jpg" then some "image/jpeg"
  else if e = "jpeg" then some "image/jpeg"
  else if e = "webp" then some "image/webp"
  else none

/-- Modelled from the repository's read test (`texture.test.ts` lines 35-36),
which pins the missing Reader's MIME-type assignment: an explicit `mimeType` on the image entry wins;
otherwise the MIME type is derived from the URI's file extension — the test
assigns `image/png` to a 1-byte image named `tex1.png`, whose bytes match no
signature, so the image bytes are not consulted. -/
def readTextureMimeType (explicit : Option String) (uri : String) (_bytes : List Nat) :
    Option String :=
  match explicit with
  | some m => some m
  | none => extensionToMimeType (uriExtension uri)

/-! ### Writer: external resource naming (modelled from the spec, §4.3 step 6) -/

/-- Material texture slots that can reference a texture. -/
inductive TextureSlot where
  | baseColor
  | normal
  | occlusion
  | emissive
deriving DecidableEq, Repr

/-- The file-name stem synthesized for each referencing relation. -/
def TextureSlot.fileBase : TextureSlot → String
  | .baseColor => "baseColor"
  | .normal => "normal"
  | .occlusion => "occlusion"
  | .emissive => "emissive"

/-- Modelled from the spec: the missing `ImageUtils.mimeTypeToExtension`. -/
def mimeTypeToExtension (m : String) : String :=
  if m = "image/png" then "png"
  else if m = "image/jpeg" then "jpg"
  else if m = "image/webp" then "webp"
  else "bin"

/-- A texture as the Writer's naming step sees it: its explicit URI if any,
its MIME type, and the material relation that references it. -/
structure WriterTexture where
  uri : Option String
  mimeType : String
  slot : TextureSlot
deriving DecidableEq, Repr

/-- Count of unnamed textures of the given slot among the textures already named. -/
def unnamedSlotCount (slot : TextureSlot) (prior : List WriterTexture) : Nat :=
  (prior.filter (fun t => decide (t.uri = none ∧ t.slot = slot))).length

/-- Modelled from the spec: a texture with an explicit URI keeps it; otherwise its
name is the referencing relation's stem plus a 1-based counter among unnamed
textures of that relation, plus the MIME-derived extension. -/
def textureFileName (prior : List WriterTexture) (t : WriterTexture) : String :=
  match t.uri with
  | some u => u
  | none =>
    t.slot.fileBase ++ "_" ++ toString (unnamedSlotCount t.slot prior + 1) ++ "."
      ++ mimeTypeToExtension t.mimeType

/-- Names the textures in order, threading the already-named prefix. -/
def assignFileNamesFrom (prior : List WriterTexture) : List WriterTexture → List String
  | [] => []
  | t :: rest => textureFileName prior t :: assignFileNamesFrom (prior ++ [t]) rest

/-- External resource names for the Writer's texture list. -/
def assignFileNames (ts : List WriterTexture) : List String := assignFileNamesFrom [] ts

/-! ### Writer/Reader document model (modelled from the spec, §4.3, §4.4) -/

/-- Opaque extras bag attached to any Element, stored and copied by value. -/
abbrev Extras := List (String × Int)

/-- Sampler wrap/filter settings (value-typed, deduplicated by value on write). -/
structure Sampler where
  wrapS : Nat
  wrapT : Nat
  magFilter : Nat
  minFilter : Nat
deriving DecidableEq, Repr

/-- Default sampler settings; 10497 is the wire format's REPEAT wrap mode. -/
def Sampler.default : Sampler :=
  { wrapS := 10497, wrapT := 10497, magFilter := 0, minFilter := 0 }

/-- First-occurrence deduplication with an accumulator of already-seen values. -/
def firstDedupAux [DecidableEq α] (seen : List α) : List α → List α
  | [] => []
  | x :: xs =>
    if x ∈ seen then firstDedupAux seen xs
    else x :: firstDedupAux (seen ++ [x]) xs

/-- Modelled from the spec: value-deduplication preserving first occurrences —
"Samplers are compared by full value equality; if two TextureInfos produce equal
Sampler values, only one Sampler entry is emitted". -/
def firstDedup [DecidableEq α] (l : List α) : List α := firstDedupAux [] l

/-- An in-memory Texture Element: image bytes, MIME type, URI, extras. -/
structure Texture where
  name : String
  image : List Nat
  mimeType : String
  uri : String
  extras : Extras
deriving DecidableEq, Repr

/-- An in-memory TextureInfo: a reference to a shared Texture (by its index in
the document's texture list) plus slot-local sampler settings and extras. -/
structure TextureInfo where
  texture : Nat
  sampler : Sampler
  extras : Extras
deriving DecidableEq, Repr

/-- An in-memory Material with its texture slots. -/
structure Material where
  name : String
  baseColorTexture : Option TextureInfo
  normalTexture : Option TextureInfo
  occlusionTexture : Option TextureInfo
  extras : Extras
deriving DecidableEq, Repr

/-- The document model reachable from Root that the texture round-trip exercises. -/
structure Document where
  textures : List Texture
  materials : List Material
deriving DecidableEq, Repr

/-- A wire-format image entry: `{uri}` and/or `{bufferView, mimeType}`; the
MIME type may be absent. -/
structure ImageDef where
  name : String
  image : List Nat
  mimeType : Option String
  uri : String
  extras : Extras
deriving DecidableEq, Repr

/-- A wire-format texture entry `{source, sampler?}` of array indices. -/
structure TextureDef where
  source : Nat
  sampler : Option Nat
deriving DecidableEq, Repr

/-- A wire-format texture-info occurrence `{index}` on a material slot. -/
structure TextureInfoDef where
  index : Nat
  extras : Extras
deriving DecidableEq, Repr

/-- A wire-format material entry. -/
structure MaterialDef where
  name : String
  baseColorTexture : Option TextureInfoDef
  normalTexture : Option TextureInfoDef
  occlusionTexture : Option TextureInfoDef
  extras : Extras
deriving DecidableEq, Repr

/-- The JSON description: index-referenced per-type arrays. -/
structure JsonDoc where
  images : List ImageDef
  samplers : List Sampler
  textures : List TextureDef
  materials : List MaterialDef
deriving DecidableEq, Repr

/-- The TextureInfos attached to one material, in slot order. -/
def Material.infos (m : Material) : List TextureInfo :=
  m.baseColorTexture.toList ++ m.normalTexture.toList ++ m.occlusionTexture.toList

/-- All TextureInfos of a document, in material traversal order. -/
def Document.infos (d : Document) : List TextureInfo :=
  d.materials.flatMap Material.infos

/-- Modelled from the spec: the deduplicated sampler table the Writer emits. -/
def writeSamplers (d : Document) : List Sampler :=
  firstDedup (d.infos.map TextureInfo.sampler)

/-- The wire texture entry for an in-memory TextureInfo: its texture's image
index paired with its sampler's index in the deduplicated sampler table. -/
def toTextureDef (samplers : List Sampler) (i : TextureInfo) : TextureDef :=
  { source := i.texture, sampler := some (samplers.indexOf i.sampler) }

/-- Modelled from the spec: the deduplicated texture-entry table the Writer emits. -/
def writeTextureDefs (d : Document) : List TextureDef :=
  firstDedup (d.infos.map (toTextureDef (writeSamplers d)))

/-- The wire occurrence for one TextureInfo: the index of its `{source, sampler}`
pair in the texture-entry table, plus its extras. -/
def writeInfo (samplers : List Sampler) (textureDefs : List TextureDef)
    (i : TextureInfo) : TextureInfoDef :=
  { index := textureDefs.indexOf (toTextureDef samplers i), extras := i.extras }

/-- The wire entry for one Material. -/
def writeMaterial (samplers : List Sampler) (textureDefs : List TextureDef)
    (m : Material) : MaterialDef :=
  { name := m.name,
    baseColorTexture := m.baseColorTexture.map (writeInfo samplers textureDefs),
    normalTexture := m.normalTexture.map (writeInfo samplers textureDefs),
    occlusionTexture := m.occlusionTexture.map (writeInfo samplers textureDefs),
    extras := m.extras }

/-- The wire image entry for one Texture Element (one image per texture); the
Writer always records the texture's known MIME type. -/
def toImageDef (t : Texture) : ImageDef :=
  { name := t.name, image := t.image, mimeType := some t.mimeType, uri := t.uri,
    extras := t.extras }

/-- Modelled from the spec: `write` walks the reachable graph and emits the
index-referenced JSON description, deduplicating samplers and texture entries. -/
def writeDocument (d : Document) : JsonDoc :=
  let samplers := writeSamplers d
  let textureDefs := writeTextureDefs d
  { images := d.textures.map toImageDef,
    samplers := samplers,
    textures := textureDefs,
    materials := d.materials.map (writeMaterial samplers textureDefs) }

/-- The in-memory Texture Element the Reader creates for one image entry; the
MIME type is assigned per `readTextureMimeType` (explicit value, else derived
from the URI extension). -/
def readImage (img : ImageDef) : Texture :=
  { name := img.name, image := img.image,
    mimeType := (readTextureMimeType img.mimeType img.uri img.image).getD "",
    uri := img.uri, extras := img.extras }

/-- Modelled from the spec: the Reader resolves a material-slot occurrence through
the texture-entry table — the referenced entry's `source` is the shared Texture
Element's identity, and its `sampler` index resolves to sampler settings (or the
defaults when absent). -/
def readInfo (j : JsonDoc) (d : TextureInfoDef) : TextureInfo :=
  let td := j.textures.getD d.index { source := 0, sampler := none }
  { texture := td.source,
    sampler := match td.sampler with
      | some si => j.samplers.getD si Sampler.default
      | none => Sampler.default,
    extras := d.extras }

/-- The in-memory Material the Reader creates for one material entry. -/
def readMaterial (j : JsonDoc) (m : MaterialDef) : Material :=
  { name := m.name,
    baseColorTexture := m.baseColorTexture.map (readInfo j),
    normalTexture := m.normalTexture.map (readInfo j),
    occlusionTexture := m.occlusionTexture.map (readInfo j),
    extras := m.extras }

/-- Modelled from the spec: `read` constructs one Texture Element per image entry
and resolves every cross-reference by index. -/
def readDocument (j : JsonDoc) : Document :=
  { textures := j.images.map readImage,
    materials := j.materials.map (readMaterial j) }

/-! ### Graph clone (modelled from the spec, §4.1) -/

/-- Element payloads in the clone model: meshes own primitives (exclusive
links), primitives reference accessor attributes (shared vertex streams, per
the transform-mesh test) and a material (shared link); materials reference a
texture (shared link). -/
inductive ElemData where
  | accessorE
  | textureE
  | materialE (texture : Option Nat)
  | primE (attributes : List Nat) (material : Option Nat)
  | meshE (primitives : List Nat)
deriving DecidableEq, Repr

/-- The graph's element store; an element's identity is its index. -/
abbrev GraphStore := List ElemData

/-- Modelled from the repository's transform-mesh test (lines 58-66), which
pins that `prim.clone()` re-points attribute links at the identical shared
accessors (two independent clones hold the same POSITION accessor): cloning a
primitive allocates a fresh primitive identity whose attribute and material
links point at the same targets as the source's. -/
def clonePrim (g : GraphStore) (pid : Nat) : GraphStore × Nat :=
  (g ++ [g.getD pid .accessorE], g.length)

/-- Clones a list of primitives left to right, threading the store. -/
def clonePrims (g : GraphStore) : List Nat → GraphStore × List Nat
  | [] => (g, [])
  | p :: rest =>
    let (g1, p1) := clonePrim g p
    let (g2, rest1) := clonePrims g1 rest
    (g2, p1 :: rest1)

/-- Modelled from the spec: `graph.clone(mesh)` copies the mesh's exclusively
owned primitives and gives the copy a fresh identity; each primitive clone
shares its accessor and material targets per the transform-mesh test. -/
def cloneMesh (g : GraphStore) (mid : Nat) : GraphStore × Nat :=
  match g.getD mid .accessorE with
  | .meshE prims =>
    let (g1, prims1) := clonePrims g prims
    (g1 ++ [.meshE prims1], g1.length)
  | other => (g ++ [other], g.length)

/-- The primitive identities owned by the element at `mid`, when it is a mesh. -/
def meshPrims (g : GraphStore) (mid : Nat) : List Nat :=
  match g.getD mid .accessorE with
  | .meshE prims => prims
  | _ => []

/-- The shared material identity referenced by the element at `pid`, when it is
a primitive. -/
def primMaterial (g : GraphStore) (pid : Nat) : Option Nat :=
  match g.getD pid .accessorE with
  | .primE _ material => material
  | _ => none

/-- The accessor identities referenced by the element at `pid`, when it is a
primitive. -/
def primAttributes (g : GraphStore) (pid : Nat) : List Nat :=
  match g.getD pid .accessorE with
  | .primE attrs _ => attrs
  | _ => []

/-! ### Fixtures (concrete inputs used by witnesses and concrete scenarios) -/

/-- The JSON description of the read test (`texture.test.ts` lines 5-21):
three texture entries over two images, two materials. -/
def readTestJson : JsonDoc :=
  { images :=
      [{ name := "", image := [0], mimeType := none, uri := "tex1.png", extras := [] },
       { name := "", image := [0, 0], mimeType := none, uri := "tex2.jpeg", extras := [] }],
    samplers := [{ wrapS := 33071, wrapT := 10497, magFilter := 0, minFilter := 0 }],
    textures := [{ source := 0, sampler := some 0 }, { source := 1, sampler := none },
                 { source := 0, sampler := none }],
    materials :=
      [{ name := "", baseColorTexture := none,
         normalTexture := some { index := 0, extras := [] },
         occlusionTexture := some { index := 2, extras := [] }, extras := [] },
       { name := "", baseColorTexture := none,
         normalTexture := some { index := 1, extras := [] },
         occlusionTexture := none, extras := [] }] }

/-- A concrete graph store for the clone witness: accessor 0, material 1
(referencing texture 2), texture 2, primitive 3 (attribute accessor 0, shared
material 1), mesh 4 (owning primitive 3). -/
def cloneFixture : GraphStore :=
  [.accessorE, .materialE (some 2), .textureE, .primE [0] (some 1), .meshE [3]]

/-- Sampler settings with `wrapS = CLAMP_TO_EDGE`. -/
def clampSampler : Sampler :=
  { wrapS := 33071, wrapT := 10497, magFilter := 0, minFilter := 0 }

/-- A document with three TextureInfos carrying equal sampler values, set
independently on two materials. -/
def equalSamplerDoc : Document :=
  { textures := [{ name := "t", image := [1], mimeType := "image/png", uri := "", extras := [] }],
    materials :=
      [{ name := "m1",
         baseColorTexture := some { texture := 0, sampler := clampSampler, extras := [] },
         normalTexture := some { texture := 0, sampler := clampSampler, extras := [] },
         occlusionTexture := none, extras := [] },
       { name := "m2",
         baseColorTexture := some { texture := 0, sampler := clampSampler, extras := [] },
         normalTexture := none, occlusionTexture := none, extras := [] }] }

/-- A document with two TextureInfos carrying different sampler values. -/
def mixedSamplerDoc : Document :=
  { textures := [{ name := "t", image := [1], mimeType := "image/png", uri := "", extras := [] }],
    materials :=
      [{ name := "m1",
         baseColorTexture := some { texture := 0, sampler := clampSampler, extras := [] },
         normalTexture := some { texture := 0, sampler := Sampler.default, extras := [] },
         occlusionTexture := none, extras := [] }] }

/-- The Writer naming scenario of the write test (`texture.test.ts` lines 40-66)
extended by a second unnamed normal map. -/
def namingFixture : List WriterTexture :=
  [{ uri := some "tex1.png", mimeType := "image/png", slot := .baseColor },
   { uri := none, mimeType := "image/jpeg", slot := .normal },
   { uri := none, mimeType := "image/jpeg", slot := .occlusion },
   { uri := none, mimeType := "image/jpeg", slot := .normal }]

/-- An image entry with no explicit MIME type, a PNG extension and bytes that
match no image signature (the read test's `tex1.png`, one zero byte). -/
def unsniffableImage : ImageDef :=
  { name := "", image := [0], mimeType := none, uri := "tex1.png", extras := [] }

/-- Default used when indexing writer texture lists. -/
def writerTextureDefault : WriterTexture :=
  { uri := none, mimeType := "", slot := .baseColor }

/-! ### Helper lemmas -/

/-- Lemma: `getD` is stable under appending to the store. -/
theorem getD_append_of_lt {α : Type} (l ext : List α) (i : Nat) (h : i < l.length) (d : α) :
    (l ++ ext).getD i d = l.getD i d := by
  simp [List.getD, List.getElem?_append_left h]

/-- Lemma: `getD` at the old length reads the appended element. -/
theorem getD_snoc_self {α : Type} (l : List α) (x d : α) : (l ++ [x]).getD l.length d = x := by
  simp [List.getD]

/-- Aligned offsets are multiples of 8. -/
theorem alignTo8_mod (n : Nat) : alignTo8 n % 8 = 0 := Nat.mul_mod_left _ 8

/-- Every buffer view emitted by the packer has an 8-byte-aligned start offset. -/
theorem packSegments_aligned (l : List Nat) :
    ∀ (cursor : Nat), ∀ v ∈ packSegments cursor l, v.byteOffset % 8 = 0 := by
  induction l with
  | nil => intro cursor v hv; simp [packSegments] at hv
  | cons len rest ih =>
    intro cursor v hv
    simp only [packSegments, List.mem_cons] at hv
    rcases hv with hv | hv
    · rw [hv]; exact alignTo8_mod cursor
    · exact ih _ v hv

/-! ### Claim theorems -/

/-- C1: the claim that `Container.clone()` duplicates the graph and returns
normally fails on the source: the method body is `throw new Error('Not
implemented.')`, so every call raises. -/
theorem container_clone_raises (c : Container) :
    c.clone = Except.error "Not implemented." := rfl

/-- C9: every factory method registers the created element in the graph,
appends it to its Root collection (for top-level types) and returns it with the
requested type; `createPrimitive` registers its primitive but leaves Root
untouched. -/
theorem container_factory_methods (c : Container) (name : String) (b : Nat) :
    ((c.createScene name).2.id ∈ (c.createScene name).1.graph.elements ∧
      (c.createScene name).1.root.scenes = c.root.scenes ++ [(c.createScene name).2.id] ∧
      (c.createScene name).2.etype = .scene) ∧
    ((c.createNode name).2.id ∈ (c.createNode name).1.graph.elements ∧
      (c.createNode name).1.root.nodes = c.root.nodes ++ [(c.createNode name).2.id] ∧
      (c.createNode name).2.etype = .node) ∧
    ((c.createMesh name).2.id ∈ (c.createMesh name).1.graph.elements ∧
      (c.createMesh name).1.root.meshes = c.root.meshes ++ [(c.createMesh name).2.id] ∧
      (c.createMesh name).2.etype = .mesh) ∧
    ((c.createMaterial name).2.id ∈ (c.createMaterial name).1.graph.elements ∧
      (c.createMaterial name).1.root.materials
        = c.root.materials ++ [(c.createMaterial name).2.id] ∧
      (c.createMaterial name).2.etype = .material) ∧
    ((c.createTexture name).2.id ∈ (c.createTexture name).1.graph.elements ∧
      (c.createTexture name).1.root.textures
        = c.root.textures ++ [(c.createTexture name).2.id] ∧
      (c.createTexture name).2.etype = .texture) ∧
    ((c.createAccessor name b).2.id ∈ (c.createAccessor name b).1.graph.elements ∧
      (c.createAccessor name b).1.root.accessors
        = c.root.accessors ++ [(c.createAccessor name b).2.id] ∧
      (c.createAccessor name b).2.etype = .accessor) ∧
    ((c.createBuffer name).2.id ∈ (c.createBuffer name).1.graph.elements ∧
      (c.createBuffer name).1.root.buffers = c.root.buffers ++ [(c.createBuffer name).2.id] ∧
      (c.createBuffer name).2.etype = .buffer) ∧
    (c.createPrimitive.2.id ∈ c.createPrimitive.1.graph.elements ∧
      c.createPrimitive.1.root = c.root ∧
      c.createPrimitive.2.etype = .primitive) := by
  refine ⟨⟨?_, rfl, rfl⟩, ⟨?_, rfl, rfl⟩, ⟨?_, rfl, rfl⟩, ⟨?_, rfl, rfl⟩, ⟨?_, rfl, rfl⟩,
    ⟨?_, rfl, rfl⟩, ⟨?_, rfl, rfl⟩, ⟨?_, rfl, rfl⟩⟩ <;>
    simp [Container.createScene, Container.createNode, Container.createMesh,
      Container.createMaterial, Container.createTexture, Container.createAccessor,
      Container.createBuffer, Container.createPrimitive, ElementGraph.newElement,
      Element.setBuffer]

/-- C10: `createAccessor` returns an accessor already linked to its buffer
argument; no other factory method links the created element to a pre-existing
element. -/
theorem createAccessor_buffer_link (c : Container) (name : String) (b : Nat) :
    (c.createAccessor name b).2.links = [b] ∧
    (c.createScene name).2.links = [] ∧
    (c.createNode name).2.links = [] ∧
    (c.createMesh name).2.links = [] ∧
    c.createPrimitive.2.links = [] ∧
    (c.createMaterial name).2.links = [] ∧
    (c.createTexture name).2.links = [] ∧
    (c.createBuffer name).2.links = [] :=
  ⟨rfl, rfl, rfl, rfl, rfl, rfl, rfl, rfl⟩

/-- C2: packing image payloads of 17, 21 and 20 bytes yields buffer views
`{0,0,17}`, `{0,24,21}`, `{0,48,20}` and a 72-byte buffer; in general every
emitted buffer view's start offset is a multiple of 8. -/
theorem texture_padding :
    packBufferViews [17, 21, 20] =
      [{ buffer := 0, byteOffset := 0, byteLength := 17 },
       { buffer := 0, byteOffset := 24, byteLength := 21 },
       { buffer := 0, byteOffset := 48, byteLength := 20 }] ∧
    packedBufferLength [17, 21, 20] = 72 ∧
    ∀ (lengths : List Nat), ∀ v ∈ packBufferViews lengths, v.byteOffset % 8 = 0 :=
  ⟨by decide, by decide, fun lengths v hv => packSegments_aligned lengths 0 v hv⟩

/-- C2 witness: the second view of the concrete scenario is in the packer's
output and its offset 24 is 8-byte aligned. -/
theorem texture_padding_witness :
    ({ buffer := 0, byteOffset := 24, byteLength := 21 } : BufferViewDef)
        ∈ packBufferViews [17, 21, 20] ∧
    ({ buffer := 0, byteOffset := 24, byteLength := 21 } : BufferViewDef).byteOffset % 8 = 0 :=
  ⟨by decide, texture_padding.2.2 [17, 21, 20] _ (by decide)⟩

/-- Membership in the dedup accumulator run: in the remainder and not yet seen. -/
theorem mem_firstDedupAux {α : Type} [DecidableEq α] (l : List α) :
    ∀ (seen : List α) (a : α), a ∈ firstDedupAux seen l ↔ a ∈ l ∧ a ∉ seen := by
  induction l with
  | nil => intro seen a; simp [firstDedupAux]
  | cons x xs ih =>
    intro seen a
    simp only [firstDedupAux]
    by_cases hx : x ∈ seen
    · rw [if_pos hx, ih]
      simp only [List.mem_cons]
      constructor
      · rintro ⟨ha, hs⟩; exact ⟨Or.inr ha, hs⟩
      · rintro ⟨ha | ha, hs⟩
        · exact absurd (ha ▸ hx) hs
        · exact ⟨ha, hs⟩
    · rw [if_neg hx]
      simp only [List.mem_cons, ih, List.mem_append, List.mem_singleton]
      constructor
      · rintro (rfl | ⟨ha, hs⟩)
        · exact ⟨Or.inl rfl, hx⟩
        · exact ⟨Or.inr ha, fun h => hs (Or.inl h)⟩
      · rintro ⟨ha, hs⟩
        by_cases hax : a = x
        · exact Or.inl hax
        · rcases ha with rfl | ha
          · exact Or.inl rfl
          · exact Or.inr ⟨ha, by simp [hs, hax]⟩

/-- Deduplication preserves membership. -/
theorem mem_firstDedup {α : Type} [DecidableEq α] (l : List α) (a : α) :
    a ∈ firstDedup l ↔ a ∈ l := by
  rw [firstDedup, mem_firstDedupAux]; simp

/-- A run whose inputs were all seen already emits nothing. -/
theorem firstDedupAux_all_seen {α : Type} [DecidableEq α] (l : List α) :
    ∀ (seen : List α), (∀ x ∈ l, x ∈ seen) → firstDedupAux seen l = [] := by
  induction l with
  | nil => intro seen _; rfl
  | cons x xs ih =>
    intro seen h
    simp only [firstDedupAux, if_pos (h x (List.mem_cons_self x xs))]
    exact ih seen (fun y hy => h y (List.mem_cons_of_mem x hy))

/-- A nonempty constant list deduplicates to a single entry. -/
theorem firstDedup_const {α : Type} [DecidableEq α] (l : List α) (s : α) (hne : l ≠ [])
    (hall : ∀ x ∈ l, x = s) : firstDedup l = [s] := by
  cases l with
  | nil => exact absurd rfl hne
  | cons x xs =>
    have hx : x = s := hall x (List.mem_cons_self x xs)
    subst hx
    show firstDedupAux [] (x :: xs) = [x]
    rw [firstDedupAux, if_neg (List.not_mem_nil x)]
    rw [firstDedupAux_all_seen xs ([] ++ [x])
      (fun y hy => by simp [hall y (List.mem_cons_of_mem x hy)])]

/-- C5: for every document whose TextureInfos all carry equal sampler values
(however many there are) the Writer emits exactly one Sampler entry; two
TextureInfos with different sampler values always index distinct entries. -/
theorem sampler_dedup :
    (∀ (d : Document) (s : Sampler), d.infos ≠ [] → (∀ i ∈ d.infos, i.sampler = s) →
      writeSamplers d = [s]) ∧
    (∀ (d : Document) (i1 i2 : TextureInfo), i1 ∈ d.infos → i2 ∈ d.infos →
      i1.sampler ≠ i2.sampler →
      (writeSamplers d).indexOf i1.sampler ≠ (writeSamplers d).indexOf i2.sampler) := by
  constructor
  · intro d s hne hall
    apply firstDedup_const
    · simp only [ne_eq, List.map_eq_nil_iff]; exact hne
    · intro x hx
      rcases List.mem_map.1 hx with ⟨i, hi, rfl⟩
      exact hall i hi
  · intro d i1 i2 h1 h2 hne
    have m1 : i1.sampler ∈ writeSamplers d :=
      (mem_firstDedup _ _).2 (List.mem_map.2 ⟨i1, h1, rfl⟩)
    have m2 : i2.sampler ∈ writeSamplers d :=
      (mem_firstDedup _ _).2 (List.mem_map.2 ⟨i2, h2, rfl⟩)
    exact fun heq => hne ((List.indexOf_inj m1 m2).1 heq)

/-- C5 witness: three independently set equal sampler values collapse to one
entry; two differing values get distinct entries. -/
theorem sampler_dedup_witness :
    writeSamplers equalSamplerDoc = [clampSampler] ∧
    (writeSamplers mixedSamplerDoc).indexOf clampSampler
      ≠ (writeSamplers mixedSamplerDoc).indexOf Sampler.default :=
  ⟨sampler_dedup.1 equalSamplerDoc clampSampler (by decide) (by decide),
   sampler_dedup.2 mixedSamplerDoc
     { texture := 0, sampler := clampSampler, extras := [] }
     { texture := 0, sampler := Sampler.default, extras := [] }
     (by decide) (by decide) (by decide)⟩

/-- Reading back the image entry written for a texture restores the texture. -/
theorem readImage_toImageDef (t : Texture) : readImage (toImageDef t) = t := by
  cases t; rfl

/-- A TextureInfo of a reachable material is among the document's infos. -/
theorem infos_of_mem_material {d : Document} {m : Material} {i : TextureInfo}
    (hm : m ∈ d.materials) (hi : i ∈ m.infos) : i ∈ d.infos :=
  List.mem_flatMap.2 ⟨m, hm, hi⟩

/-- Lemma: `getD` at an element's index recovers the element. -/
theorem getD_indexOf_self {α : Type} [DecidableEq α] (l : List α) (a : α) (d : α)
    (h : a ∈ l) : l.getD (l.indexOf a) d = a := by
  rw [List.getD_eq_getElem l d (List.indexOf_lt_length.2 h)]
  exact List.getElem_indexOf _

/-- Resolving the written occurrence of a TextureInfo through the written
tables restores the TextureInfo: same shared texture identity, same sampler
settings, same extras. -/
theorem readInfo_writeInfo (d : Document) (i : TextureInfo) (hi : i ∈ d.infos) :
    readInfo (writeDocument d) (writeInfo (writeSamplers d) (writeTextureDefs d) i) = i := by
  have htd : toTextureDef (writeSamplers d) i ∈ writeTextureDefs d :=
    (mem_firstDedup _ _).2 (List.mem_map.2 ⟨i, hi, rfl⟩)
  have hs : i.sampler ∈ writeSamplers d :=
    (mem_firstDedup _ _).2 (List.mem_map.2 ⟨i, hi, rfl⟩)
  have h1 : (writeTextureDefs d).getD
      ((writeTextureDefs d).indexOf (toTextureDef (writeSamplers d) i))
      { source := 0, sampler := none } = toTextureDef (writeSamplers d) i :=
    getD_indexOf_self _ _ _ htd
  have h2 : (writeSamplers d).getD ((writeSamplers d).indexOf i.sampler) Sampler.default
      = i.sampler := getD_indexOf_self _ _ _ hs
  show readInfo (writeDocument d)
      { index := (writeTextureDefs d).indexOf (toTextureDef (writeSamplers d) i),
        extras := i.extras } = i
  unfold readInfo
  show ({ texture := _, sampler := _, extras := _ } : TextureInfo) = i
  rw [show (writeDocument d).textures = writeTextureDefs d from rfl, h1]
  show ({ texture := i.texture,
          sampler := (writeSamplers d).getD ((writeSamplers d).indexOf i.sampler)
            Sampler.default,
          extras := i.extras } : TextureInfo) = i
  rw [h2]

/-- Reading back the written entry of a reachable material restores the material. -/
theorem readMaterial_writeMaterial (d : Document) (m : Material) (hm : m ∈ d.materials) :
    readMaterial (writeDocument d)
      (writeMaterial (writeSamplers d) (writeTextureDefs d) m) = m := by
  have hslot : ∀ (o : Option TextureInfo), (∀ i, o = some i → i ∈ m.infos) →
      (o.map (writeInfo (writeSamplers d) (writeTextureDefs d))).map
        (readInfo (writeDocument d)) = o := by
    intro o ho
    cases o with
    | none => rfl
    | some i =>
      exact congrArg some (readInfo_writeInfo d i (infos_of_mem_material hm (ho i rfl)))
  show ({ name := m.name,
          baseColorTexture := (m.baseColorTexture.map _).map _,
          normalTexture := (m.normalTexture.map _).map _,
          occlusionTexture := (m.occlusionTexture.map _).map _,
          extras := m.extras } : Material) = m
  rw [hslot m.baseColorTexture (fun i h => by simp [Material.infos, h]),
    hslot m.normalTexture (fun i h => by simp [Material.infos, h]),
    hslot m.occlusionTexture (fun i h => by simp [Material.infos, h])]

/-- Reading back the written entries of a sublist of reachable materials
restores the sublist. -/
theorem readMaterials_writeMaterials (d : Document) :
    ∀ (ms : List Material), (∀ m ∈ ms, m ∈ d.materials) →
      (ms.map (writeMaterial (writeSamplers d) (writeTextureDefs d))).map
        (readMaterial (writeDocument d)) = ms := by
  intro ms hms
  induction ms with
  | nil => rfl
  | cons m rest ih =>
    simp only [List.map_cons]
    rw [readMaterial_writeMaterial d m (hms m (List.mem_cons_self m rest)),
      ih (fun x hx => hms x (List.mem_cons_of_mem m hx))]

/-- C6: `read(write(D)) = D` for every document of the model — per-type element
counts, link topology (shared texture targets stay shared) and extras are all
preserved by a write-then-read round trip. -/
theorem write_read_roundtrip (d : Document) : readDocument (writeDocument d) = d := by
  have ht : (writeDocument d).images.map readImage = d.textures := by
    show (d.textures.map toImageDef).map readImage = d.textures
    rw [List.map_map, show readImage ∘ toImageDef = id from funext readImage_toImageDef,
      List.map_id]
  have hm : (writeDocument d).materials.map (readMaterial (writeDocument d)) = d.materials := by
    show (d.materials.map (writeMaterial (writeSamplers d) (writeTextureDefs d))).map
      (readMaterial (writeDocument d)) = d.materials
    exact readMaterials_writeMaterials d d.materials (fun _ h => h)
  unfold readDocument
  rw [ht, hm]

/-- C4: reading the test description (three texture entries, two referencing
image 0) yields exactly 2 in-memory Texture Elements — the image count — and
the two entries with source 0 resolve material slots to the identical Texture
Element; in general the Reader creates one Texture Element per image, and
occurrences whose entries share a source index resolve to the same Element. -/
theorem read_texture_dedup :
    (readDocument readTestJson).textures.length = 2 ∧
    readTestJson.textures.length = 3 ∧
    (readInfo readTestJson { index := 0, extras := [] }).texture
      = (readInfo readTestJson { index := 2, extras := [] }).texture ∧
    (∀ j : JsonDoc, (readDocument j).textures.length = j.images.length) ∧
    (∀ (j : JsonDoc) (d1 d2 : TextureInfoDef),
      (j.textures.getD d1.index { source := 0, sampler := none }).source
        = (j.textures.getD d2.index { source := 0, sampler := none }).source →
      (readInfo j d1).texture = (readInfo j d2).texture) := by
  refine ⟨by decide, by decide, by decide, ?_, ?_⟩
  · intro j; simp [readDocument]
  · intro j d1 d2 h
    simp only [readInfo]
    exact h

/-- C4 witness: the general laws instantiated at the test description — the
texture count matches the image count, and indices 0 and 2 share one Element. -/
theorem read_texture_dedup_witness :
    (readDocument readTestJson).textures.length = readTestJson.images.length ∧
    (readInfo readTestJson { index := 0, extras := [] }).texture
      = (readInfo readTestJson { index := 2, extras := [] }).texture :=
  ⟨read_texture_dedup.2.2.2.1 readTestJson,
   read_texture_dedup.2.2.2.2 readTestJson { index := 0, extras := [] }
     { index := 2, extras := [] } (by decide)⟩

/-- C7 counterexample: the Reader assigns `image/png` to the test's `tex1.png`
image although its single zero byte matches no byte signature — the MIME type
is taken from the URI extension, contradicting the claim that it is inferred
from the byte signature and not from the URI. -/
theorem mime_not_from_signature_cex :
    unsniffableImage.mimeType = none ∧
    sniffMimeType unsniffableImage.image = none ∧
    (readImage unsniffableImage).mimeType = "image/png" :=
  ⟨rfl, by decide, by decide⟩

/-- C7 amended: for a texture read without an explicit MIME type, the MIME type
is derived from the URI's file extension and is independent of the image bytes. -/
theorem mime_from_uri_extension (img : ImageDef) (h : img.mimeType = none) :
    (readImage img).mimeType = (extensionToMimeType (uriExtension img.uri)).getD "" ∧
    ∀ bytes : List Nat,
      (readImage { img with image := bytes }).mimeType = (readImage img).mimeType := by
  constructor
  · simp [readImage, readTextureMimeType, h]
  · intro bytes
    simp [readImage, readTextureMimeType, h]

/-- C7 witness: the amended rule instantiated at the test's `tex1.png` image. -/
theorem mime_from_uri_extension_witness :
    unsniffableImage.mimeType = none ∧
    (readImage unsniffableImage).mimeType
      = (extensionToMimeType (uriExtension unsniffableImage.uri)).getD "" :=
  ⟨rfl, (mime_from_uri_extension unsniffableImage rfl).1⟩

/-- The name assigned at position `i` depends on the already-processed prefix. -/
theorem assignFileNamesFrom_getD (ts : List WriterTexture) :
    ∀ (prior : List WriterTexture) (i : Nat), i < ts.length →
      (assignFileNamesFrom prior ts).getD i ""
        = textureFileName (prior ++ ts.take i) (ts.getD i writerTextureDefault) := by
  induction ts with
  | nil => intro prior i h; simp at h
  | cons t rest ih =>
    intro prior i h
    cases i with
    | zero => simp [assignFileNamesFrom, List.getD]
    | succ n =>
      simp only [assignFileNamesFrom, List.getD_cons_succ, List.take_succ_cons]
      rw [ih (prior ++ [t]) n (Nat.lt_of_succ_lt_succ h)]
      simp [List.append_assoc]

/-- C8: in the write-test scenario the explicitly named texture keeps
`tex1.png` and the unnamed normal/occlusion maps become `normal_1.jpg`,
`occlusion_1.jpg` (a second unnamed normal map becomes `normal_2.jpg`); in
general an explicit URI is never overwritten, and an unnamed texture's name is
its relation's stem plus a 1-based counter among earlier unnamed textures of
that relation plus the MIME-derived extension. -/
theorem texture_naming :
    assignFileNames namingFixture
      = ["tex1.png", "normal_1.jpg", "occlusion_1.jpg", "normal_2.jpg"] ∧
    (∀ (prior : List WriterTexture) (t : WriterTexture) (u : String),
      t.uri = some u → textureFileName prior t = u) ∧
    (∀ (ts : List WriterTexture) (i : Nat), i < ts.length →
      (ts.getD i writerTextureDefault).uri = none →
      (assignFileNames ts).getD i ""
        = (ts.getD i writerTextureDefault).slot.fileBase ++ "_"
          ++ toString (unnamedSlotCount (ts.getD i writerTextureDefault).slot (ts.take i) + 1)
          ++ "." ++ mimeTypeToExtension (ts.getD i writerTextureDefault).mimeType) := by
  refine ⟨by decide, ?_, ?_⟩
  · intro prior t u hu
    simp [textureFileName, hu]
  · intro ts i h hu
    rw [assignFileNames, assignFileNamesFrom_getD ts [] i h, List.nil_append]
    unfold textureFileName
    split
    next u heq => rw [hu] at heq; exact Option.noConfusion heq
    next heq => rfl

/-- C8 witness: the naming rules instantiated at the fixture — the second
unnamed normal map (position 3) receives the counter-2 name. -/
theorem texture_naming_witness :
    (namingFixture.getD 3 writerTextureDefault).uri = none ∧
    (assignFileNames namingFixture).getD 3 ""
      = (namingFixture.getD 3 writerTextureDefault).slot.fileBase ++ "_"
        ++ toString
          (unnamedSlotCount (namingFixture.getD 3 writerTextureDefault).slot
            (namingFixture.take 3) + 1)
        ++ "." ++ mimeTypeToExtension (namingFixture.getD 3 writerTextureDefault).mimeType :=
  ⟨by decide, texture_naming.2.2 namingFixture 3 (by decide) (by decide)⟩

/-- Lemma: `primMaterial` is stable under appending to the store. -/
theorem primMaterial_append (l ext : GraphStore) (i : Nat) (h : i < l.length) :
    primMaterial (l ++ ext) i = primMaterial l i := by
  unfold primMaterial
  rw [getD_append_of_lt l ext i h]

/-- Lemma: `primAttributes` is stable under appending to the store. -/
theorem primAttributes_append (l ext : GraphStore) (i : Nat) (h : i < l.length) :
    primAttributes (l ++ ext) i = primAttributes l i := by
  unfold primAttributes
  rw [getD_append_of_lt l ext i h]

/-- Cloning one primitive appends one element to the store; the clone is a
fresh in-range identity whose material identity and accessor identities are
the identical ones of its source (shared, not duplicated). -/
theorem clonePrim_spec (g : GraphStore) (pid : Nat) :
    (∃ ext, (clonePrim g pid).1 = g ++ ext) ∧
    g.length ≤ (clonePrim g pid).2 ∧
    (clonePrim g pid).2 < (clonePrim g pid).1.length ∧
    primMaterial (clonePrim g pid).1 (clonePrim g pid).2 = primMaterial g pid ∧
    primAttributes (clonePrim g pid).1 (clonePrim g pid).2 = primAttributes g pid := by
  refine ⟨⟨[g.getD pid .accessorE], rfl⟩, Nat.le_refl _, by simp [clonePrim], ?_, ?_⟩
  · unfold primMaterial clonePrim
    rw [getD_snoc_self]
  · unfold primAttributes clonePrim
    rw [getD_snoc_self]

/-- Equation: cloning a nonempty primitive list. -/
theorem clonePrims_cons (g : GraphStore) (p : Nat) (rest : List Nat) :
    clonePrims g (p :: rest)
      = ((clonePrims (clonePrim g p).1 rest).1,
         (clonePrim g p).2 :: (clonePrims (clonePrim g p).1 rest).2) := rfl

/-- Cloning a primitive list appends to the store, yields as many fresh
in-range identities as sources, and re-points every clone's material and
accessor links at its source's identical targets. -/
theorem clonePrims_spec (ps : List Nat) :
    ∀ (g : GraphStore), (∀ p ∈ ps, p < g.length) →
      (∃ ext, (clonePrims g ps).1 = g ++ ext) ∧
      (clonePrims g ps).2.length = ps.length ∧
      (∀ p1 ∈ (clonePrims g ps).2, g.length ≤ p1 ∧ p1 < (clonePrims g ps).1.length) ∧
      (∀ k, k < ps.length →
        primMaterial (clonePrims g ps).1 ((clonePrims g ps).2.getD k 0)
          = primMaterial g (ps.getD k 0) ∧
        primAttributes (clonePrims g ps).1 ((clonePrims g ps).2.getD k 0)
          = primAttributes g (ps.getD k 0)) := by
  induction ps with
  | nil =>
    intro g _
    refine ⟨⟨[], by simp [clonePrims]⟩, rfl, by simp [clonePrims], ?_⟩
    intro k hk
    simp at hk
  | cons p rest ih =>
    intro g hps
    obtain ⟨⟨ext0, hg1⟩, hp1ge, hp1lt, hmat1, hattr1⟩ := clonePrim_spec g p
    have hlen1 : g.length ≤ (clonePrim g p).1.length := by rw [hg1]; simp
    have hps2 : ∀ q ∈ rest, q < (clonePrim g p).1.length :=
      fun q hq => Nat.lt_of_lt_of_le (hps q (List.mem_cons_of_mem p hq)) hlen1
    obtain ⟨⟨ext1, hg2⟩, hlen, hfresh, hidx⟩ := ih (clonePrim g p).1 hps2
    have hlen2 : (clonePrim g p).1.length ≤ (clonePrims (clonePrim g p).1 rest).1.length := by
      rw [hg2]; simp
    refine ⟨⟨ext0 ++ ext1, ?_⟩, ?_, ?_, ?_⟩
    · rw [clonePrims_cons]
      show (clonePrims (clonePrim g p).1 rest).1 = _
      rw [hg2, hg1, List.append_assoc]
    · rw [clonePrims_cons]
      show ((clonePrim g p).2 :: (clonePrims (clonePrim g p).1 rest).2).length = _
      rw [List.length_cons, hlen, List.length_cons]
    · intro p1 hp1
      rw [clonePrims_cons] at hp1
      rcases List.mem_cons.1 hp1 with rfl | h
      · exact ⟨hp1ge, by rw [clonePrims_cons]; exact Nat.lt_of_lt_of_le hp1lt hlen2⟩
      · obtain ⟨h1, h2⟩ := hfresh p1 h
        exact ⟨Nat.le_trans hlen1 h1, by rw [clonePrims_cons]; exact h2⟩
    · intro k hk
      rw [clonePrims_cons]
      cases k with
      | zero =>
        simp only [List.getD_cons_zero]
        constructor
        · rw [hg2, primMaterial_append _ _ _ hp1lt, hmat1]
        · rw [hg2, primAttributes_append _ _ _ hp1lt, hattr1]
      | succ n =>
        have hn : n < rest.length := Nat.lt_of_succ_lt_succ hk
        simp only [List.getD_cons_succ]
        obtain ⟨hidxm, hidxa⟩ := hidx n hn
        have hmem : rest.getD n 0 ∈ rest := by
          rw [List.getD_eq_getElem rest 0 hn]
          exact List.getElem_mem hn
        have hq : rest.getD n 0 < g.length :=
          hps (rest.getD n 0) (List.mem_cons_of_mem p hmem)
        constructor
        · rw [hidxm, hg1, primMaterial_append _ _ _ hq]
        · rw [hidxa, hg1, primAttributes_append _ _ _ hq]

/-- C3 counterexample: exactly as the transform-mesh test pins (lines 58-66),
two independent clones of primitive 3 both keep attribute accessor identity 0,
a pre-existing identity of the store rather than a new one — cloning shares
the accessors instead of duplicating them with new identities. -/
theorem clone_shares_accessors_cex :
    primAttributes (clonePrim cloneFixture 3).1 (clonePrim cloneFixture 3).2
      = primAttributes cloneFixture 3 ∧
    primAttributes (clonePrim (clonePrim cloneFixture 3).1 3).1
        (clonePrim (clonePrim cloneFixture 3).1 3).2
      = primAttributes (clonePrim cloneFixture 3).1 (clonePrim cloneFixture 3).2 ∧
    primAttributes cloneFixture 3 = [0] ∧
    0 < cloneFixture.length := by decide

/-- C3 (amended): `graph.clone(mesh)` gives the cloned mesh a fresh identity,
leaves every pre-existing element untouched, and duplicates the owned
primitives (as many fresh identities as sources) while re-pointing each
clone's shared links at the identical targets: the cloned primitives keep the
identical material identity and the identical accessor identities of their
sources. -/
theorem clone_mesh_semantics (g : GraphStore) (mid : Nat) (prims : List Nat)
    (hm : g.getD mid .accessorE = .meshE prims)
    (hps : ∀ p ∈ prims, p < g.length) :
    g.length ≤ (cloneMesh g mid).2 ∧
    (∀ i, i < g.length → (cloneMesh g mid).1.getD i .accessorE = g.getD i .accessorE) ∧
    (meshPrims (cloneMesh g mid).1 (cloneMesh g mid).2).length = prims.length ∧
    (∀ p1 ∈ meshPrims (cloneMesh g mid).1 (cloneMesh g mid).2, g.length ≤ p1) ∧
    (∀ k, k < prims.length →
      primMaterial (cloneMesh g mid).1
          ((meshPrims (cloneMesh g mid).1 (cloneMesh g mid).2).getD k 0)
        = primMaterial g (prims.getD k 0) ∧
      primAttributes (cloneMesh g mid).1
          ((meshPrims (cloneMesh g mid).1 (cloneMesh g mid).2).getD k 0)
        = primAttributes g (prims.getD k 0)) := by
  obtain ⟨⟨ext, hg2⟩, hlen, hfresh, hidx⟩ := clonePrims_spec prims g hps
  have hm1 : (cloneMesh g mid).1
      = (clonePrims g prims).1 ++ [.meshE (clonePrims g prims).2] := by
    unfold cloneMesh
    rw [hm]
  have hm2 : (cloneMesh g mid).2 = (clonePrims g prims).1.length := by
    unfold cloneMesh
    rw [hm]
  have hglen : g.length ≤ (clonePrims g prims).1.length := by rw [hg2]; simp
  have hprims : meshPrims (cloneMesh g mid).1 (cloneMesh g mid).2
      = (clonePrims g prims).2 := by
    rw [hm1, hm2]
    unfold meshPrims
    rw [getD_snoc_self]
  refine ⟨?_, ?_, ?_, ?_, ?_⟩
  · rw [hm2]; exact hglen
  · intro i hi
    rw [hm1, getD_append_of_lt _ _ i (Nat.lt_of_lt_of_le hi hglen), hg2,
      getD_append_of_lt _ _ i hi]
  · rw [hprims]; exact hlen
  · intro p1 hp1
    rw [hprims] at hp1
    exact (hfresh p1 hp1).1
  · intro k hk
    rw [hprims]
    have hkl : k < (clonePrims g prims).2.length := by rw [hlen]; exact hk
    have hmem : (clonePrims g prims).2.getD k 0 ∈ (clonePrims g prims).2 := by
      rw [List.getD_eq_getElem _ 0 hkl]
      exact List.getElem_mem hkl
    have hlt : (clonePrims g prims).2.getD k 0 < (clonePrims g prims).1.length :=
      (hfresh _ hmem).2
    obtain ⟨hkm, hka⟩ := hidx k hk
    constructor
    · rw [hm1, primMaterial_append _ _ _ hlt, hkm]
    · rw [hm1, primAttributes_append _ _ _ hlt, hka]

/-- C3 witness: cloning the fixture's mesh 4 (one primitive referencing
accessor 0 and shared material 1) yields a fresh mesh identity while the
cloned primitive keeps material identity `some 1` and accessor identity 0. -/
theorem clone_mesh_semantics_witness :
    cloneFixture.length ≤ (cloneMesh cloneFixture 4).2 ∧
    primMaterial (cloneMesh cloneFixture 4).1
        ((meshPrims (cloneMesh cloneFixture 4).1 (cloneMesh cloneFixture 4).2).getD 0 0)
      = primMaterial cloneFixture ([3].getD 0 0) ∧
    primAttributes (cloneMesh cloneFixture 4).1
        ((meshPrims (cloneMesh cloneFixture 4).1 (cloneMesh cloneFixture 4).2).getD 0 0)
      = primAttributes cloneFixture ([3].getD 0 0) :=
  ⟨(clone_mesh_semantics cloneFixture 4 [3] (by decide) (by decide)).1,
   ((clone_mesh_semantics cloneFixture 4 [3] (by decide) (by decide)).2.2.2.2 0
     (by decide)).1,
   ((clone_mesh_semantics cloneFixture 4 [3] (by decide) (by decide)).2.2.2.2 0
     (by decide)).2⟩
